import Mathlib

/-!
Verification development for a client-side image gallery
(single source file: script.js).

The script is shallowly embedded: the static catalog and the pure
filter/search/sort engine become Lean functions; the stateful UI pieces
(paginated grid, lightbox, slideshow, favorites views, persistence)
become explicit state-passing functions over small state structures.
Platform primitives are modelled at the granularity the script uses
them:

* Date parsing of ISO "YYYY-MM-DD" strings is modelled by the ordinal
  key y*10000 + m*100 + d, which is order-isomorphic to the epoch
  timestamp the script compares.
* Array.prototype.sort with a comparator c is modelled by the stable
  List.mergeSort with the relation fun a b => c a b <= 0 (ECMAScript
  requires sort to be stable and, for consistent comparators, sorted
  with respect to c; stable + sorted determines the output uniquely).
* String.prototype.localeCompare on the catalog's ASCII titles is
  modelled by code-point lexicographic comparison.
* localStorage is a field of the state; JSON.parse on the favorites
  key is modelled by an executable parser of JSON string arrays that
  fails (as JSON.parse throws) on malformed input.
-/

namespace Gallery

/-- Image record of the catalog, mirroring the fields of each object in
the IMAGES array of script.js. -/
structure Image where
  id : String
  title : String
  description : String
  category : String
  url : String
  date : String
  popularity : Int
deriving DecidableEq, Repr, Inhabited

/-- The static 20-item catalog, literally transcribed from the IMAGES
array of script.js. -/
def IMAGES : List Image := [
  ⟨"1", "Misty Forest", "Morning mist in evergreen forest.", "nature", "image/photo1.avif", "2024-11-05", 80⟩,
  ⟨"2", "Desert Road", "Lonely road through sand dunes.", "travel", "image/photo2.avif", "2025-01-12", 54⟩,
  ⟨"3", "City Sunrise", "Sunrise hitting skyscrapers.", "architecture", "image/photo3.avif", "2023-08-21", 120⟩,
  ⟨"4", "Street Food Cart", "Spicy evening snacks.", "food", "image/photo4.avif", "2024-02-10", 63⟩,
  ⟨"5", "Mountain Lake", "Crystal lake reflection.", "nature", "image/photo5.avif", "2025-03-03", 145⟩,
  ⟨"6", "Vintage Train", "Old steam engine at station.", "travel", "image/photo6.avif", "2022-12-01", 42⟩,
  ⟨"7", "Smiling Child", "Candid street portrait.", "people", "image/photo7.avif", "2024-06-18", 99⟩,
  ⟨"8", "Blueberry Tart", "Fresh dessert close-up.", "food", "image/photo8.avif", "2025-05-02", 77⟩,
  ⟨"9", "Old Bridge", "Historic stone bridge.", "architecture", "image/photo9.avif", "2023-10-10", 58⟩,
  ⟨"10", "Coastal Cliffs", "Waves crash on cliffs.", "nature", "image/photo10.avif", "2025-07-08", 200⟩,
  ⟨"11", "Neon Alley", "Nightlife in the city.", "travel", "image/photo11.avif", "2024-09-09", 88⟩,
  ⟨"12", "Portrait in Window Light", "Soft natural light portrait.", "people", "image/photo12.avif", "2023-05-06", 110⟩,
  ⟨"13", "Rooftop Cafe", "Coffee with city view.", "travel", "image/photo13.avif", "2025-02-14", 67⟩,
  ⟨"14", "Autumn Path", "Leaves on a quiet path.", "nature", "image/photo14.avif", "2022-10-11", 47⟩,
  ⟨"15", "Modern Lobby", "Minimal building lobby.", "architecture", "image/photo15.avif", "2025-06-25", 33⟩,
  ⟨"16", "Festival Crowd", "Joyful packed crowd.", "people", "image/photo16.avif", "2024-12-30", 95⟩,
  ⟨"17", "Pasta Delight", "Creamy pasta close-up.", "food", "image/photo17.avif", "2025-04-15", 71⟩,
  ⟨"18", "Foggy Pier", "Pier vanishing into fog.", "travel", "image/photo18.avif", "2021-11-21", 29⟩,
  ⟨"19", "Golden Fields", "Harvest fields at dusk.", "nature", "image/photo19.avif", "2024-08-30", 60⟩,
  ⟨"20", "Glass Tower", "Reflections on glass facade.", "architecture", "image/photo20.avif", "2025-08-03", 125⟩]

/-- Page size of the grid renderer (PAGE_SIZE = 8 in script.js). -/
def PAGE_SIZE : Nat := 8

/-- Boolean test that the first list is an initial segment of the
second; building block for the substring test below. -/
def leadsWith : List Char → List Char → Bool
  | [], _ => true
  | _ :: _, [] => false
  | a :: as, b :: bs => a == b && leadsWith as bs

/-- Boolean test that the first list occurs contiguously inside the
second. -/
def hasSub (needle : List Char) : List Char → Bool
  | [] => needle.isEmpty
  | c :: cs => leadsWith needle (c :: cs) || hasSub needle cs

/-- Embedding of JavaScript's String.prototype.includes: the needle
occurs contiguously in the haystack. -/
def strIncludes (hay needle : String) : Bool :=
  hasSub needle.data hay.data

/-- Model of String.prototype.toLowerCase, faithful on the catalog's
ASCII data: lowercase every character. Implemented over the character
list so that it evaluates by kernel reduction. -/
def toLowerStr (s : String) : String :=
  String.mk (s.data.map Char.toLower)

/-- Model of String.prototype.trim: strip whitespace from both ends. -/
def trimStr (s : String) : String :=
  String.mk (((s.data.dropWhile Char.isWhitespace).reverse.dropWhile Char.isWhitespace).reverse)

/-- Filter predicate of applyFiltersSearchSort (script.js lines
160-164): the category matches ("all" matches everything) and the
trimmed lowercased query, when non-empty, occurs in the lowercased
space-separated concatenation title + " " + description + " " +
category. The argument query is already trimmed and lowercased, as in
the script. -/
def matchesFilters (activeCategory query : String) (img : Image) : Bool :=
  (activeCategory == "all" || img.category == activeCategory) &&
  (query == "" || strIncludes (toLowerStr (img.title ++ " " ++ img.description ++ " " ++ img.category)) query)

/-- Numeric value of a digit group of an ISO date. -/
def digitsVal (cs : List Char) : Nat :=
  cs.foldl (fun n c => n * 10 + (c.toNat - 48)) 0

/-- Value of one dash-separated group: its number when all digits,
0 otherwise. -/
def groupVal (cs : List Char) : Nat :=
  if cs.all Char.isDigit && !cs.isEmpty then digitsVal cs else 0

/-- Split a character list at dashes. -/
def splitDash : List Char → List (List Char)
  | [] => [[]]
  | c :: cs =>
    if c = '-' then [] :: splitDash cs
    else match splitDash cs with
      | [] => [[c]]
      | g :: gs => (c :: g) :: gs

/-- Date key modelling new Date(s).getTime() for ISO "YYYY-MM-DD"
strings: the ordinal y*10000 + m*100 + d is order-isomorphic to the
epoch timestamp on valid ISO dates, which is all the comparators use. -/
def dateVal (s : String) : Int :=
  match splitDash s.data with
  | [y, m, d] => Int.ofNat (groupVal y * 10000 + groupVal m * 100 + groupVal d)
  | _ => 0

/-- Code-point lexicographic three-way comparison on character lists;
model of localeCompare for the catalog's ASCII titles. -/
def cmpChars : List Char → List Char → Int
  | [], [] => 0
  | [], _ :: _ => -1
  | _ :: _, [] => 1
  | a :: as, b :: bs => if a < b then -1 else if b < a then 1 else cmpChars as bs

/-- Comparator passed to filteredList.sort (script.js lines 168-174),
for the given value of the sort select. -/
def compareImages (sortBy : String) (a b : Image) : Int :=
  if sortBy == "newest" then dateVal b.date - dateVal a.date
  else if sortBy == "oldest" then dateVal a.date - dateVal b.date
  else if sortBy == "popular" then b.popularity - a.popularity
  else if sortBy == "name" then cmpChars a.title.data b.title.data
  else 0

/-- Embedding of Array.prototype.sort with the script's comparator: the
stable merge sort with respect to comparator-at-most-zero. -/
def sortImages (sortBy : String) (l : List Image) : List Image :=
  l.mergeSort fun a b => decide (compareImages sortBy a b ≤ 0)

/-- Embedding of applyFiltersSearchSort (script.js lines 157-177) as a
pure function of the three inputs the script reads from the page:
active category, raw search field value, and sort mode. Returns the
new filteredList. -/
def applyFiltersSearchSort (activeCategory searchValue sortBy : String) : List Image :=
  let query := toLowerStr (trimStr searchValue)
  sortImages sortBy (IMAGES.filter (matchesFilters activeCategory query))

/-- Search predicate as the specification words it: the query, when
non-empty, is a substring of the lowercased PLAIN concatenation of
title, description and category (no separators). Stated for comparison
with matchesFilters, which is what the code computes. -/
def specPlainConcatMatches (activeCategory query : String) (img : Image) : Bool :=
  (activeCategory == "all" || img.category == activeCategory) &&
  (query == "" || strIncludes (toLowerStr (img.title ++ img.description ++ img.category)) query)

/-- State of the paginated grid renderer: the current filteredList, the
page cursor, the number of item nodes in the gallery element, and
whether the load-more control is displayed. -/
structure GalleryState where
  filteredList : List Image
  currentPage : Nat
  rendered : Nat
  loadMoreVisible : Bool
deriving DecidableEq, Repr

/-- Embedding of renderGalleryPage (script.js lines 188-221): slice
filteredList at the page window, append the slice's items to the
gallery, show the load-more control exactly when the window's end is
short of the list, advance the page cursor, and replace the gallery
with a placeholder (zero item nodes) when the list is empty. Returns
the new state together with the number of freshly created item nodes. -/
def renderGalleryPage (st : GalleryState) : GalleryState × Nat :=
  let start := st.currentPage * PAGE_SIZE
  let pageItems := (st.filteredList.drop start).take PAGE_SIZE
  ({ st with
      rendered := if st.filteredList.length = 0 then 0 else st.rendered + pageItems.length,
      loadMoreVisible := decide (start + PAGE_SIZE < st.filteredList.length),
      currentPage := st.currentPage + 1 },
    pageItems.length)

/-- Lightbox navigation state: the filteredList and the currentIndex
global of script.js. -/
structure LightboxState where
  filteredList : List Image
  currentIndex : Nat
deriving DecidableEq, Repr

/-- Embedding of showNext (script.js lines 368-372): no-op on an empty
filteredList, otherwise advance modulo the length. -/
def showNext (st : LightboxState) : LightboxState :=
  if st.filteredList.length = 0 then st
  else { st with currentIndex := (st.currentIndex + 1) % st.filteredList.length }

/-- Embedding of showPrev (script.js lines 362-366): no-op on an empty
filteredList, otherwise retreat modulo the length; currentIndex - 1 +
length is computed as currentIndex + length - 1, equal for every
non-negative currentIndex and positive length. -/
def showPrev (st : LightboxState) : LightboxState :=
  if st.filteredList.length = 0 then st
  else { st with currentIndex := (st.currentIndex + st.filteredList.length - 1) % st.filteredList.length }

/-- Membership-preserving insertion for the JS Set favorites: append
unless already present. -/
def setAdd (s : List String) (x : String) : List String :=
  if s.contains x then s else s ++ [x]

/-- Removal for the JS Set favorites. -/
def setDelete (s : List String) (x : String) : List String :=
  s.filter fun y => y != x

/-- JSON.stringify(Array.from(favorites)) for a list of ids without
quotes or escapes in them. -/
def serializeIds (s : List String) : String :=
  "[" ++ String.intercalate "," (s.map fun id => "\"" ++ id ++ "\"") ++ "]"

/-- Joint state of the favorite-displaying surfaces: the filter inputs,
the filteredList and lightbox index, the favorites set (insertion
order), the persisted localStorage string, the heart icons of the
currently rendered grid items (image id paired with filled-or-not),
the lightbox heart icon, and the ids of the rows rendered in the
favorites sidebar. -/
structure ViewState where
  activeCategory : String
  searchValue : String
  sortBy : String
  filteredList : List Image
  currentIndex : Nat
  favorites : List String
  storedFavorites : String
  gridIcons : List (String × Bool)
  lightboxIconFilled : Bool
  sidebarIds : List String
deriving DecidableEq, Repr

/-- Embedding of persistFavorites (script.js lines 292-294): write the
serialized set to storage. -/
def persistFavorites (st : ViewState) : ViewState :=
  { st with storedFavorites := serializeIds st.favorites }

/-- Embedding of updateLightboxFavoriteIcon (script.js lines 347-354):
when filteredList[currentIndex] exists, set the lightbox heart to the
membership of its id; otherwise do nothing. -/
def updateLightboxFavoriteIcon (st : ViewState) : ViewState :=
  match st.filteredList.get? st.currentIndex with
  | none => st
  | some img => { st with lightboxIconFilled := st.favorites.contains img.id }

/-- Embedding of renderFavoritesSidebar (script.js lines 516-555): one
row per favorites id, in set order, skipping ids with no catalog
record. -/
def renderFavoritesSidebar (st : ViewState) : ViewState :=
  { st with sidebarIds := st.favorites.filter fun id => (IMAGES.find? fun i => i.id == id).isSome }

/-- DOM update of one grid heart button: set the filled flag of the
icons recorded for that image id. -/
def updateGridIcon (icons : List (String × Bool)) (imgId : String) (filled : Bool) : List (String × Bool) :=
  icons.map fun p => if p.1 == imgId then (p.1, filled) else p

/-- Embedding of the effective toggleFavorite (script.js lines 558-570,
the second declaration, which shadows the first): flip membership,
update the passed grid button icon when one was passed (btnPassed),
persist, refresh the lightbox icon, re-render the sidebar. -/
def toggleFavorite (st : ViewState) (imgId : String) (btnPassed : Bool) : ViewState :=
  let st1 :=
    if st.favorites.contains imgId then
      let st' := { st with favorites := setDelete st.favorites imgId }
      if btnPassed then { st' with gridIcons := updateGridIcon st'.gridIcons imgId false } else st'
    else
      let st' := { st with favorites := setAdd st.favorites imgId }
      if btnPassed then { st' with gridIcons := updateGridIcon st'.gridIcons imgId true } else st'
  renderFavoritesSidebar (updateLightboxFavoriteIcon (persistFavorites st1))

/-- Grid surface (script.js lines 255-258): the item's heart button
click calls toggleFavorite with that button node. -/
def gridToggleFavorite (st : ViewState) (imgId : String) : ViewState :=
  toggleFavorite st imgId true

/-- Lightbox surface, embedding toggleFavoriteCurrent (script.js lines
311-315): toggle the current item's id with no button node, then
refresh the lightbox icon once more. -/
def toggleFavoriteCurrent (st : ViewState) : ViewState :=
  match st.filteredList.get? st.currentIndex with
  | none => st
  | some img => updateLightboxFavoriteIcon (toggleFavorite st img.id false)

/-- Embedding of resetAndRender (script.js lines 182-186) as far as the
modelled state goes: recompute filteredList from the current inputs,
clear the gallery and render page 0, whose item icons are rebuilt from
the favorites set. -/
def resetAndRender (st : ViewState) : ViewState :=
  let fl := applyFiltersSearchSort st.activeCategory st.searchValue st.sortBy
  { st with
      filteredList := fl,
      gridIcons := (fl.take PAGE_SIZE).map fun img => (img.id, st.favorites.contains img.id) }

/-- Sidebar surface (script.js lines 545-549): the remove button calls
toggleFavorite with no button node, re-renders the sidebar, then
resetAndRender rebuilds the grid. -/
def sidebarRemoveFavorite (st : ViewState) (imgId : String) : ViewState :=
  resetAndRender (renderFavoritesSidebar (toggleFavorite st imgId false))

/-- Lightbox-and-slideshow state: whether the modal has the active
class, whether slideshowInterval is set, and the navigation state the
slideshow tick advances. -/
structure AppState where
  lightboxActive : Bool
  slideshowOn : Bool
  filteredList : List Image
  currentIndex : Nat
deriving DecidableEq, Repr

/-- Embedding of stopSlideshow (script.js lines 424-431): when an
interval is set, clear it (and reset the button affordance); otherwise
return immediately. -/
def stopSlideshow (st : AppState) : AppState :=
  if st.slideshowOn then { st with slideshowOn := false } else st

/-- Embedding of startSlideshow (script.js lines 415-422): set the
interval (and the playing affordance). -/
def startSlideshow (st : AppState) : AppState :=
  { st with slideshowOn := true }

/-- Embedding of toggleSlideshow (script.js lines 410-413). -/
def toggleSlideshow (st : AppState) : AppState :=
  if st.slideshowOn then stopSlideshow st else startSlideshow st

/-- Embedding of closeLightbox (script.js lines 356-359): drop the
active class, then stopSlideshow. -/
def closeLightbox (st : AppState) : AppState :=
  stopSlideshow { st with lightboxActive := false }

/-- showNext at the AppState level (script.js lines 368-372). -/
def advanceNext (st : AppState) : AppState :=
  if st.filteredList.length = 0 then st
  else { st with currentIndex := (st.currentIndex + 1) % st.filteredList.length }

/-- showPrev at the AppState level (script.js lines 362-366). -/
def advancePrev (st : AppState) : AppState :=
  if st.filteredList.length = 0 then st
  else { st with currentIndex := (st.currentIndex + st.filteredList.length - 1) % st.filteredList.length }

/-- User and timer events that reach the lightbox/slideshow handlers
wired in bindUI (script.js lines 113-136) plus the interval tick and
opening an item from the grid. -/
inductive Event where
  | clickClose
  | clickOverlay
  | keyEscape
  | keyArrowRight
  | keyArrowLeft
  | keySpace
  | clickSlideshowBtn
  | clickPrevBtn
  | clickNextBtn
  | slideshowTick
  | openItem (i : Nat)
deriving DecidableEq, Repr

/-- One event dispatch. Keydown handlers are guarded by the modal's
active class exactly as in script.js lines 126-136. The close control,
prev/next, and action buttons are children of the modal, which is not
displayed without the active class, so click events on them can only
be delivered while the lightbox is active; the overlay and close
handlers run closeLightbox, which is idempotent when already closed,
so those two are left unguarded. A tick of the cleared interval never
fires, so slideshowTick acts only when an interval is set. Opening an
item is openLightboxByIndex (script.js lines 320-325). -/
def step (st : AppState) (e : Event) : AppState :=
  match e with
  | .clickClose => closeLightbox st
  | .clickOverlay => closeLightbox st
  | .keyEscape => if st.lightboxActive then closeLightbox st else st
  | .keyArrowRight => if st.lightboxActive then advanceNext st else st
  | .keyArrowLeft => if st.lightboxActive then advancePrev st else st
  | .keySpace => if st.lightboxActive then toggleSlideshow st else st
  | .clickSlideshowBtn => if st.lightboxActive then toggleSlideshow st else st
  | .clickPrevBtn => if st.lightboxActive then advancePrev st else st
  | .clickNextBtn => if st.lightboxActive then advanceNext st else st
  | .slideshowTick => if st.slideshowOn then advanceNext st else st
  | .openItem i =>
      if i < st.filteredList.length then
        { st with currentIndex := i, lightboxActive := true }
      else st

/-- Whitespace skipping for the JSON model. -/
def skipWs (cs : List Char) : List Char :=
  cs.dropWhile fun c => c.isWhitespace

/-- Body of a JSON string literal after the opening quote: plain
characters up to the closing quote; escapes are not modelled and make
the parse fail. The first argument accumulates in reverse. -/
def takeStrLit : List Char → List Char → Option (String × List Char)
  | _, [] => none
  | acc, c :: rest =>
    if c = '"' then some (String.mk acc.reverse, rest)
    else if c = '\\' then none
    else takeStrLit (c :: acc) rest

/-- JSON string literal starting at the given characters. -/
def parseStrLit (cs : List Char) : Option (String × List Char) :=
  match cs with
  | '"' :: rest => takeStrLit [] rest
  | _ => none

/-- Comma-separated string literals up to the closing bracket, with a
fuel argument for termination; fails on anything else. -/
def parseItems : Nat → List Char → List String → Option (List String)
  | 0, _, _ => none
  | fuel + 1, cs, acc =>
    match parseStrLit cs with
    | none => none
    | some (s, rest) =>
      match skipWs rest with
      | ',' :: r2 => parseItems fuel (skipWs r2) (acc ++ [s])
      | ']' :: r2 => if (skipWs r2).isEmpty then some (acc ++ [s]) else none
      | _ => none

/-- JSON.parse restricted to what the favorites key is meant to hold: a
JSON array of strings. Returns none where JSON.parse would throw a
SyntaxError (and also on well-formed JSON that is not an array of
strings, which the favorites key never holds under this program's own
writes, since persistFavorites always stores a string array). -/
def jsonParseStringArray (s : String) : Option (List String) :=
  match skipWs s.data with
  | '[' :: rest =>
    match skipWs rest with
    | ']' :: r2 => if (skipWs r2).isEmpty then some [] else none
    | cs => parseItems (cs.length + 1) cs []
  | _ => none

/-- Embedding of the favorites hydration (script.js line 48):
new Set(JSON.parse(localStorage.getItem("gallery_favorites") || "[]")).
A missing key (null) and the empty string are both falsy, so they fall
back to "[]"; any other stored string goes to JSON.parse as is, and a
parse failure is an uncaught exception, modelled as Except.error. The
Set constructor keeps the first occurrence of each id. -/
def hydrateFavorites (stored : Option String) : Except String (List String) :=
  let raw := match stored with
    | none => "[]"
    | some s => if s == "" then "[]" else s
  match jsonParseStringArray raw with
  | some ids => Except.ok ids.eraseDups
  | none => Except.error "SyntaxError in JSON.parse"

/-- C4: for every non-empty filtered list with the lightbox selection in
range, next from the last index yields index 0 and prev from index 0
yields the last index; on a single-item list next and prev leave the
state unchanged; and on an empty filtered list next and prev are
no-ops. -/
theorem C4_circular_navigation (st : LightboxState) :
    (0 < st.filteredList.length → st.currentIndex = st.filteredList.length - 1 →
      (showNext st).currentIndex = 0) ∧
    (0 < st.filteredList.length → st.currentIndex = 0 →
      (showPrev st).currentIndex = st.filteredList.length - 1) ∧
    (st.filteredList.length = 1 → st.currentIndex = 0 →
      showNext st = st ∧ showPrev st = st) ∧
    (st.filteredList.length = 0 → showNext st = st ∧ showPrev st = st) := by
  obtain ⟨fl, ci⟩ := st
  refine ⟨?_, ?_, ?_, ?_⟩
  · intro h hn
    simp only at hn
    simp only [showNext, if_neg (Nat.pos_iff_ne_zero.mp h)]
    simp only [hn, Nat.sub_add_cancel h, Nat.mod_self]
  · intro h hn
    simp only at hn
    simp only [showPrev, if_neg (Nat.pos_iff_ne_zero.mp h)]
    simp only [hn, Nat.zero_add]
    exact Nat.mod_eq_of_lt (Nat.sub_lt h Nat.one_pos)
  · intro h1 h0
    simp only at h1 h0
    subst h0
    constructor
    · simp only [showNext, h1]
      norm_num
    · simp only [showPrev, h1]
      norm_num
  · intro h0
    simp only at h0
    constructor
    · simp [showNext, h0]
    · simp [showPrev, h0]

/-- Witness for C4 at a two-item and a one-item list. -/
theorem C4_circular_navigation_witness :
    (showNext ⟨IMAGES.take 2, 1⟩).currentIndex = 0 ∧
    (showPrev ⟨IMAGES.take 2, 0⟩).currentIndex = (IMAGES.take 2).length - 1 ∧
    (showNext ⟨IMAGES.take 1, 0⟩ = ⟨IMAGES.take 1, 0⟩ ∧
      showPrev ⟨IMAGES.take 1, 0⟩ = ⟨IMAGES.take 1, 0⟩) ∧
    (showNext ⟨([] : List Image), 0⟩ = ⟨[], 0⟩ ∧ showPrev ⟨([] : List Image), 0⟩ = ⟨[], 0⟩) :=
  ⟨(C4_circular_navigation ⟨IMAGES.take 2, 1⟩).1 (by decide) (by decide),
   (C4_circular_navigation ⟨IMAGES.take 2, 0⟩).2.1 (by decide) (by decide),
   (C4_circular_navigation ⟨IMAGES.take 1, 0⟩).2.2.1 (by decide) (by decide),
   (C4_circular_navigation ⟨([] : List Image), 0⟩).2.2.2 (by decide)⟩

/-- C10: on a non-empty filtered list, a single next or prev lands the
selection in range whatever non-negative index it starts from, even a
stale out-of-range one. -/
theorem C10_navigation_restores_range (st : LightboxState)
    (h : 0 < st.filteredList.length) :
    (showNext st).currentIndex < st.filteredList.length ∧
    (showPrev st).currentIndex < st.filteredList.length := by
  obtain ⟨fl, ci⟩ := st
  simp only at h
  constructor
  · simp only [showNext, if_neg (Nat.pos_iff_ne_zero.mp h)]
    exact Nat.mod_lt _ h
  · simp only [showPrev, if_neg (Nat.pos_iff_ne_zero.mp h)]
    exact Nat.mod_lt _ h

/-- Witness for C10 at a stale index far beyond a one-item list. -/
theorem C10_navigation_restores_range_witness :
    (showNext ⟨IMAGES.take 1, 17⟩).currentIndex < (IMAGES.take 1).length ∧
    (showPrev ⟨IMAGES.take 1, 17⟩).currentIndex < (IMAGES.take 1).length :=
  C10_navigation_restores_range ⟨IMAGES.take 1, 17⟩ (by decide)

/-- C3: one renderGalleryPage call creates exactly
min(pageSize, remaining) new item nodes, never more than pageSize, and
when the rendered count was in sync with the page cursor the load-more
control ends up visible exactly when the rendered count is still short
of the filtered list. -/
theorem C3_pagination_window (st : GalleryState) :
    (renderGalleryPage st).2 =
      min PAGE_SIZE (st.filteredList.length - st.currentPage * PAGE_SIZE) ∧
    (renderGalleryPage st).2 ≤ PAGE_SIZE ∧
    (st.rendered = min (st.currentPage * PAGE_SIZE) st.filteredList.length →
      ((renderGalleryPage st).1.loadMoreVisible = true ↔
        (renderGalleryPage st).1.rendered < st.filteredList.length)) := by
  obtain ⟨fl, page, rendered, vis⟩ := st
  refine ⟨by simp [renderGalleryPage, PAGE_SIZE],
          by simp only [renderGalleryPage, PAGE_SIZE, List.length_take, List.length_drop]; omega, ?_⟩
  intro hr
  simp only at hr
  subst hr
  by_cases h0 : fl.length = 0
  · simp [renderGalleryPage, PAGE_SIZE, h0]
  · simp only [renderGalleryPage, PAGE_SIZE, List.length_take, List.length_drop, if_neg h0,
      decide_eq_true_eq]
    omega

/-- Membership in the favorites set after an insertion. -/
theorem mem_setAdd (s : List String) (x y : String) :
    y ∈ setAdd s x ↔ (y ∈ s ∨ y = x) := by
  by_cases h : x ∈ s
  · simp [setAdd, h]
    intro hy
    subst hy
    exact h
  · simp [setAdd, h]

/-- Membership in the favorites set after a removal. -/
theorem mem_setDelete (s : List String) (x y : String) :
    y ∈ setDelete s x ↔ (y ∈ s ∧ y ≠ x) := by
  simp [setDelete, List.mem_filter, bne]

/-- Characterization of the shared toggle as one record update: the new
favorites set, the conditionally updated grid button, the persisted
serialization of the new set, the refreshed lightbox icon, and the
re-rendered sidebar. -/
theorem toggleFavorite_spec (st : ViewState) (imgId : String) (btn : Bool) :
    toggleFavorite st imgId btn =
      { st with
          favorites := (if st.favorites.contains imgId then setDelete st.favorites imgId else setAdd st.favorites imgId),
          gridIcons := (if btn then updateGridIcon st.gridIcons imgId (!st.favorites.contains imgId) else st.gridIcons),
          storedFavorites := serializeIds (if st.favorites.contains imgId then setDelete st.favorites imgId else setAdd st.favorites imgId),
          lightboxIconFilled :=
            (match st.filteredList.get? st.currentIndex with
             | some img => (if st.favorites.contains imgId then setDelete st.favorites imgId else setAdd st.favorites imgId).contains img.id
             | none => st.lightboxIconFilled),
          sidebarIds := (if st.favorites.contains imgId then setDelete st.favorites imgId else setAdd st.favorites imgId).filter fun id => (IMAGES.find? fun i => i.id == id).isSome } := by
  unfold toggleFavorite persistFavorites updateLightboxFavoriteIcon renderFavoritesSidebar
  by_cases hc : imgId ∈ st.favorites <;> by_cases hb : btn <;>
    cases hget : st.filteredList[st.currentIndex]? <;>
      simp [hc, hb, hget]

/-- Favorites set produced by the shared toggle. -/
theorem toggleFavorite_favorites (st : ViewState) (imgId : String) (btn : Bool) :
    (toggleFavorite st imgId btn).favorites =
      if st.favorites.contains imgId then setDelete st.favorites imgId else setAdd st.favorites imgId := by
  rw [toggleFavorite_spec]

/-- After the shared toggle, the toggled id's membership is flipped. -/
theorem toggleFavorite_contains_self (st : ViewState) (imgId : String) (btn : Bool) :
    (toggleFavorite st imgId btn).favorites.contains imgId = !(st.favorites.contains imgId) := by
  rw [toggleFavorite_favorites, Bool.eq_iff_iff]
  by_cases hc : imgId ∈ st.favorites <;> simp [hc, mem_setAdd, mem_setDelete]

/-- Every record for the updated id in the icon list carries the value
the update wrote. -/
theorem mem_updateGridIcon_self (icons : List (String × Bool)) (imgId : String) (v b : Bool)
    (h : (imgId, b) ∈ updateGridIcon icons imgId v) : b = v := by
  unfold updateGridIcon at h
  obtain ⟨p, hp, hf⟩ := List.mem_map.mp h
  by_cases hpe : (p.1 == imgId) = true
  · rw [if_pos hpe] at hf
    simp only [Prod.mk.injEq] at hf
    exact hf.2.symm
  · rw [if_neg hpe] at hf
    subst hf
    simp at hpe

/-- Witness for C3 on the full catalog at page cursor 1 with 8 items
already rendered. -/
theorem C3_pagination_window_witness :
    (renderGalleryPage ⟨IMAGES, 1, 8, true⟩).2 =
      min PAGE_SIZE (IMAGES.length - 1 * PAGE_SIZE) ∧
    (renderGalleryPage ⟨IMAGES, 1, 8, true⟩).2 ≤ PAGE_SIZE ∧
    ((renderGalleryPage ⟨IMAGES, 1, 8, true⟩).1.loadMoreVisible = true ↔
      (renderGalleryPage ⟨IMAGES, 1, 8, true⟩).1.rendered < IMAGES.length) :=
  ⟨(C3_pagination_window ⟨IMAGES, 1, 8, true⟩).1,
   (C3_pagination_window ⟨IMAGES, 1, 8, true⟩).2.1,
   (C3_pagination_window ⟨IMAGES, 1, 8, true⟩).2.2 (by decide)⟩

/-- Unfolding of the engine: filter then stable sort. -/
theorem applyFilters_eq_mergeSort (activeCategory searchValue sortBy : String) :
    applyFiltersSearchSort activeCategory searchValue sortBy =
      (IMAGES.filter (matchesFilters activeCategory (toLowerStr (trimStr searchValue)))).mergeSort
        (fun a b => decide (compareImages sortBy a b ≤ 0)) := rfl

/-- C1 counterexample: the query "forestmorning" (already trimmed and
lowercased) is a substring of the plain concatenation of title,
description and category of the Misty Forest record — the title ends
in "Forest" and the description starts with "Morning" — so under the
claim's predicate that record must be in the result; but the engine
joins the three fields with spaces, so its result omits the record. -/
theorem C1_plain_concat_refuted :
    toLowerStr (trimStr "forestmorning") = "forestmorning" ∧
    specPlainConcatMatches "all" "forestmorning"
      ⟨"1", "Misty Forest", "Morning mist in evergreen forest.", "nature", "image/photo1.avif", "2024-11-05", 80⟩ = true ∧
    (⟨"1", "Misty Forest", "Morning mist in evergreen forest.", "nature", "image/photo1.avif", "2024-11-05", 80⟩ : Image)
      ∉ applyFiltersSearchSort "all" "forestmorning" "newest" := by
  refine ⟨by decide, by decide, ?_⟩
  have hf : IMAGES.filter (matchesFilters "all" (toLowerStr (trimStr "forestmorning"))) = [] := by
    decide
  rw [applyFilters_eq_mergeSort, hf]
  simp

/-- C1 as the code has it: for every category, search string and sort
mode, a record is in the engine's result exactly when it is a Catalog
entry whose category matches (or the category is "all") and the
trimmed lowercased search string, when non-empty, occurs in the
lowercased SPACE-SEPARATED concatenation of title, description and
category. -/
theorem C1_result_membership (activeCategory searchValue sortBy : String) (img : Image) :
    img ∈ applyFiltersSearchSort activeCategory searchValue sortBy ↔
      (img ∈ IMAGES ∧ matchesFilters activeCategory (toLowerStr (trimStr searchValue)) img = true) := by
  rw [applyFilters_eq_mergeSort]
  simp [List.mem_filter]

/-- C9 counterexample: the catalog holds five nature records, not four,
so the "nature" selection with empty search has length 5. -/
theorem C9_nature_count_is_five :
    (applyFiltersSearchSort "nature" "" "newest").length = 5 ∧
    (applyFiltersSearchSort "nature" "" "newest").length ≠ 4 := by
  have h : (applyFiltersSearchSort "nature" "" "newest").length = 5 := by
    rw [applyFilters_eq_mergeSort, List.length_mergeSort]
    decide
  exact ⟨h, by rw [h]; decide⟩

/-- C9 as the data has it: for every sort mode, selecting category
"nature" with empty search yields exactly the five nature items, ids
1, 5, 10, 14, 19, in the engine's chosen order; rendering the first
page shows all five and hides the load-more control. -/
theorem C9_nature_scenario (sortBy : String) :
    ((applyFiltersSearchSort "nature" "" sortBy).map (fun i => i.id)).Perm ["1", "5", "10", "14", "19"] ∧
    (applyFiltersSearchSort "nature" "" sortBy).length = 5 ∧
    (renderGalleryPage ⟨applyFiltersSearchSort "nature" "" sortBy, 0, 0, false⟩).1.rendered = 5 ∧
    (renderGalleryPage ⟨applyFiltersSearchSort "nature" "" sortBy, 0, 0, false⟩).1.loadMoreVisible = false := by
  have hperm : (applyFiltersSearchSort "nature" "" sortBy).Perm
      (IMAGES.filter (matchesFilters "nature" (toLowerStr (trimStr "")))) := by
    rw [applyFilters_eq_mergeSort]
    exact List.mergeSort_perm _ _
  have hmap : (IMAGES.filter (matchesFilters "nature" (toLowerStr (trimStr "")))).map (fun i => i.id)
      = ["1", "5", "10", "14", "19"] := by decide
  have hlen : (applyFiltersSearchSort "nature" "" sortBy).length = 5 := by
    rw [hperm.length_eq]
    decide
  refine ⟨?_, hlen, ?_, ?_⟩
  · have h2 := hperm.map (fun i => i.id)
    rw [hmap] at h2
    exact h2
  · simp [renderGalleryPage, hlen, List.length_take, List.length_drop, PAGE_SIZE]
  · simp [renderGalleryPage, hlen, PAGE_SIZE]

/-- Comparison with the empty character list never yields a positive
result. -/
theorem cmpChars_nil_le : ∀ (c : List Char), cmpChars [] c ≤ 0
  | [] => by simp [cmpChars]
  | _ :: _ => by simp [cmpChars]

/-- Swapping the arguments of the lexicographic comparison negates it. -/
theorem cmpChars_swap : ∀ (a b : List Char), cmpChars b a = -cmpChars a b
  | [], [] => rfl
  | [], _ :: _ => rfl
  | _ :: _, [] => rfl
  | a :: as, b :: bs => by
    simp only [cmpChars]
    rcases lt_trichotomy a b with h | h | h
    · simp [h, asymm h]
    · subst h
      simp [lt_irrefl]
      exact cmpChars_swap as bs
    · simp [h, asymm h]

/-- Transitivity of at-most-zero lexicographic comparison. -/
theorem cmpChars_le_trans : ∀ (a b c : List Char),
    cmpChars a b ≤ 0 → cmpChars b c ≤ 0 → cmpChars a c ≤ 0
  | [], _, c => fun _ _ => cmpChars_nil_le c
  | _ :: _, [], _ => by
    intro h1 _
    simp [cmpChars] at h1
  | _ :: _, _ :: _, [] => by
    intro _ h2
    simp [cmpChars] at h2
  | x :: xs, y :: ys, z :: zs => by
    intro h1 h2
    simp only [cmpChars] at h1 h2 ⊢
    rcases lt_trichotomy x y with hxy | hxy | hxy
    · rcases lt_trichotomy y z with hyz | hyz | hyz
      · simp [lt_trans hxy hyz]
      · subst hyz
        simp [hxy]
      · simp [hyz, asymm hyz] at h2
    · subst hxy
      rcases lt_trichotomy x z with hxz | hxz | hxz
      · simp [hxz]
      · subst hxz
        simp [lt_irrefl] at h1 h2 ⊢
        exact cmpChars_le_trans xs ys zs h1 h2
      · simp [hxz, asymm hxz] at h2
    · simp [hxy, asymm hxy] at h1

/-- Swapping the arguments of the script's comparator negates it, for
every sort mode. -/
theorem compareImages_swap (m : String) (a b : Image) :
    compareImages m b a = -compareImages m a b := by
  unfold compareImages
  split_ifs <;> first | omega | exact cmpChars_swap _ _

/-- The script's comparator is transitive at-most-zero, for every sort
mode. -/
theorem compareImages_le_trans (m : String) (a b c : Image)
    (h1 : compareImages m a b ≤ 0) (h2 : compareImages m b c ≤ 0) :
    compareImages m a c ≤ 0 := by
  unfold compareImages at h1 h2 ⊢
  split_ifs at h1 h2 ⊢ <;> first | omega | exact cmpChars_le_trans _ _ _ h1 h2

/-- Transitivity of the Boolean sort relation fed to the stable sort. -/
theorem sortLe_trans (m : String) (a b c : Image)
    (h1 : decide (compareImages m a b ≤ 0) = true)
    (h2 : decide (compareImages m b c ≤ 0) = true) :
    decide (compareImages m a c ≤ 0) = true := by
  rw [decide_eq_true_iff] at h1 h2 ⊢
  exact compareImages_le_trans m a b c h1 h2

/-- Totality of the Boolean sort relation fed to the stable sort. -/
theorem sortLe_total (m : String) (a b : Image) :
    (decide (compareImages m a b ≤ 0) || decide (compareImages m b a ≤ 0)) = true := by
  rcases le_or_lt (compareImages m a b) 0 with h | h
  · simp [h]
  · have h' : compareImages m b a ≤ 0 := by
      rw [compareImages_swap]
      omega
    simp [h']

/-- C2: the ordering step sorts by parsed date descending for "newest",
date ascending for "oldest", popularity descending for "popular",
title comparison for "name", leaves the list untouched for any
unrecognized mode (comparator constantly 0 under a stable sort), and
is stable: any sublist of the input whose records all compare equal
under the mode's comparator is still a sublist of the output, so
equal-key records keep their relative order. -/
theorem C2_sort_modes_and_stability (l : List Image) :
    (sortImages "newest" l).Pairwise (fun a b => dateVal b.date ≤ dateVal a.date) ∧
    (sortImages "oldest" l).Pairwise (fun a b => dateVal a.date ≤ dateVal b.date) ∧
    (sortImages "popular" l).Pairwise (fun a b => b.popularity ≤ a.popularity) ∧
    (sortImages "name" l).Pairwise (fun a b => cmpChars a.title.data b.title.data ≤ 0) ∧
    (∀ m, m ≠ "newest" → m ≠ "oldest" → m ≠ "popular" → m ≠ "name" → sortImages m l = l) ∧
    (∀ m c, List.Sublist c l → (∀ a ∈ c, ∀ b ∈ c, compareImages m a b = 0) →
      List.Sublist c (sortImages m l)) := by
  refine ⟨?_, ?_, ?_, ?_, ?_, ?_⟩
  · have hs := List.sorted_mergeSort (sortLe_trans "newest") (sortLe_total "newest") l
    refine hs.imp ?_
    intro a b h
    have h' : compareImages "newest" a b ≤ 0 := of_decide_eq_true h
    have h2 : dateVal b.date - dateVal a.date ≤ 0 := h'
    omega
  · have hs := List.sorted_mergeSort (sortLe_trans "oldest") (sortLe_total "oldest") l
    refine hs.imp ?_
    intro a b h
    have h' : compareImages "oldest" a b ≤ 0 := of_decide_eq_true h
    have h2 : dateVal a.date - dateVal b.date ≤ 0 := h'
    omega
  · have hs := List.sorted_mergeSort (sortLe_trans "popular") (sortLe_total "popular") l
    refine hs.imp ?_
    intro a b h
    have h' : compareImages "popular" a b ≤ 0 := of_decide_eq_true h
    have h2 : b.popularity - a.popularity ≤ 0 := h'
    omega
  · have hs := List.sorted_mergeSort (sortLe_trans "name") (sortLe_total "name") l
    refine hs.imp ?_
    intro a b h
    have h' : compareImages "name" a b ≤ 0 := of_decide_eq_true h
    have h2 : cmpChars a.title.data b.title.data ≤ 0 := h'
    exact h2
  · intro m h1 h2 h3 h4
    have hcomp : ∀ a b : Image, compareImages m a b = 0 := by
      intro a b
      simp [compareImages, h1, h2, h3, h4]
    have hfun : (fun a b : Image => decide (compareImages m a b ≤ 0)) = fun _ _ => true := by
      funext a b
      rw [hcomp]
      rfl
    unfold sortImages
    rw [hfun]
    exact List.mergeSort_of_sorted (List.pairwise_of_forall fun _ _ => rfl)
  · intro m c hsub hkeys
    unfold sortImages
    refine List.sublist_mergeSort (sortLe_trans m) (sortLe_total m) ?_ hsub
    refine List.pairwise_of_forall_mem_list fun a ha b hb => ?_
    have hz : compareImages m a b = 0 := hkeys a ha b hb
    rw [hz]
    rfl

/-- Witness for C2 at the unrecognized mode "date" on a three-item
list, together with stability for that mode's all-equal keys. -/
theorem C2_sort_modes_and_stability_witness :
    sortImages "date" (IMAGES.take 3) = IMAGES.take 3 ∧
    List.Sublist (IMAGES.take 3) (sortImages "date" (IMAGES.take 3)) :=
  ⟨(C2_sort_modes_and_stability (IMAGES.take 3)).2.2.2.2.1 "date"
      (by decide) (by decide) (by decide) (by decide),
   (C2_sort_modes_and_stability (IMAGES.take 3)).2.2.2.2.2 "date" (IMAGES.take 3)
      (List.Sublist.refl _) (by decide)⟩

/-- C6: toggling an id twice restores the original membership of the
favorites set for every id and every starting state, and every single
toggle leaves durable storage holding exactly the serialization of the
resulting set. -/
theorem C6_toggle_involution_and_persist (st : ViewState) (imgId x : String) (btn : Bool) :
    ((toggleFavorite (toggleFavorite st imgId btn) imgId btn).favorites.contains x
      = st.favorites.contains x) ∧
    ((toggleFavorite st imgId btn).storedFavorites
      = serializeIds ((toggleFavorite st imgId btn).favorites)) := by
  refine ⟨?_, ?_⟩
  · rw [toggleFavorite_favorites, toggleFavorite_favorites]
    rw [Bool.eq_iff_iff]
    by_cases hc : imgId ∈ st.favorites <;> by_cases hx : x = imgId
    · subst hx
      simp [hc, mem_setAdd, mem_setDelete]
    · simp [hc, hx, mem_setAdd, mem_setDelete]
    · subst hx
      simp [hc, mem_setAdd, mem_setDelete]
    · simp [hc, hx, mem_setAdd, mem_setDelete]
  · rw [toggleFavorite_spec]

/-- C5 counterexample: from a consistent rendered state (image "1" not
favorited, its grid heart outline, lightbox open on it), toggling the
favorite from the lightbox surface adds "1" to the FavoritesSet and
updates the lightbox icon and the sidebar, but leaves the rendered
grid heart for "1" unfilled: the grid view no longer agrees with the
FavoritesSet, contradicting the claim that all three views agree after
each toggle. -/
theorem C5_lightbox_toggle_stale_grid_icon :
    (toggleFavoriteCurrent ⟨"all", "", "newest", IMAGES, 0, [], "[]", [("1", false)], false, []⟩).favorites.contains "1" = true ∧
    (toggleFavoriteCurrent ⟨"all", "", "newest", IMAGES, 0, [], "[]", [("1", false)], false, []⟩).gridIcons = [("1", false)] ∧
    (toggleFavoriteCurrent ⟨"all", "", "newest", IMAGES, 0, [], "[]", [("1", false)], false, []⟩).lightboxIconFilled = true ∧
    (toggleFavoriteCurrent ⟨"all", "", "newest", IMAGES, 0, [], "[]", [("1", false)], false, []⟩).sidebarIds = ["1"] := by
  decide

/-- C5 as the code has it: all three surfaces funnel through the shared
toggleFavorite, which after every toggle leaves the sidebar and the
lightbox icon (when a current item exists) agreeing with the
FavoritesSet; the toggled item's grid icon agrees when the mutation
came from that grid item's button, and the sidebar surface's full grid
re-render leaves every rendered grid icon agreeing — but nothing
updates grid icons on a lightbox-surface toggle. -/
theorem C5_shared_toggle_fanout (st : ViewState) (imgId : String) (btn : Bool) :
    (gridToggleFavorite st imgId = toggleFavorite st imgId true) ∧
    (∀ img, st.filteredList.get? st.currentIndex = some img →
        toggleFavoriteCurrent st = updateLightboxFavoriteIcon (toggleFavorite st img.id false)) ∧
    (sidebarRemoveFavorite st imgId
      = resetAndRender (renderFavoritesSidebar (toggleFavorite st imgId false))) ∧
    (∀ img, img ∈ IMAGES →
      (toggleFavorite st imgId btn).sidebarIds.contains img.id
        = (toggleFavorite st imgId btn).favorites.contains img.id) ∧
    (∀ img, st.filteredList.get? st.currentIndex = some img →
      (toggleFavorite st imgId btn).lightboxIconFilled
        = (toggleFavorite st imgId btn).favorites.contains img.id) ∧
    (btn = true → ∀ b, (imgId, b) ∈ (toggleFavorite st imgId btn).gridIcons →
      b = (toggleFavorite st imgId btn).favorites.contains imgId) ∧
    (∀ p ∈ (sidebarRemoveFavorite st imgId).gridIcons,
      p.2 = (sidebarRemoveFavorite st imgId).favorites.contains p.1) := by
  refine ⟨rfl, ?_, rfl, ?_, ?_, ?_, ?_⟩
  · intro img hget
    unfold toggleFavoriteCurrent
    rw [hget]
  · intro img hmem
    rw [toggleFavorite_spec]
    rw [Bool.eq_iff_iff]
    have hfind : ((IMAGES.find? fun i => i.id == img.id).isSome) = true := by
      rw [List.find?_isSome]
      exact ⟨img, hmem, by simp⟩
    simp [List.mem_filter, hfind]
  · intro img hget
    rw [toggleFavorite_spec]
    simp only [hget]
  · intro hb b hmem
    subst hb
    rw [toggleFavorite_contains_self]
    rw [toggleFavorite_spec] at hmem
    simp only [if_pos rfl] at hmem
    exact mem_updateGridIcon_self _ _ _ _ hmem
  · intro p hp
    unfold sidebarRemoveFavorite resetAndRender at hp ⊢
    simp only at hp ⊢
    obtain ⟨img, hmem, heq⟩ := List.mem_map.mp hp
    rw [← heq]

/-- Field preservation of a slideshow-tick advance. -/
theorem advanceNext_flags (st : AppState) :
    (advanceNext st).slideshowOn = st.slideshowOn ∧
    (advanceNext st).lightboxActive = st.lightboxActive := by
  unfold advanceNext
  split <;> simp

/-- Field preservation of a backwards advance. -/
theorem advancePrev_flags (st : AppState) :
    (advancePrev st).slideshowOn = st.slideshowOn ∧
    (advancePrev st).lightboxActive = st.lightboxActive := by
  unfold advancePrev
  split <;> simp

/-- C7: each of the three exit paths (close control, overlay click,
Escape while open) leaves the slideshow timer cleared and the lightbox
closed; every event preserves the invariant that the slideshow is off
whenever the lightbox is closed; and a tick of a cleared timer changes
nothing, so no automatic next advance happens after close. -/
theorem C7_close_always_stops_slideshow (st : AppState) :
    ((step st .clickClose).slideshowOn = false ∧ (step st .clickClose).lightboxActive = false) ∧
    ((step st .clickOverlay).slideshowOn = false ∧ (step st .clickOverlay).lightboxActive = false) ∧
    (st.lightboxActive = true →
      (step st .keyEscape).slideshowOn = false ∧ (step st .keyEscape).lightboxActive = false) ∧
    (∀ e, (st.lightboxActive = false → st.slideshowOn = false) →
      ((step st e).lightboxActive = false → (step st e).slideshowOn = false)) ∧
    (st.slideshowOn = false → step st .slideshowTick = st) := by
  obtain ⟨act, sl, fl, ci⟩ := st
  refine ⟨?_, ?_, ?_, ?_, ?_⟩
  · cases sl <;> simp [step, closeLightbox, stopSlideshow]
  · cases sl <;> simp [step, closeLightbox, stopSlideshow]
  · intro h
    simp only at h
    subst h
    cases sl <;> simp [step, closeLightbox, stopSlideshow]
  · intro e hinv
    simp only at hinv
    intro hafter
    cases e <;> cases act <;> cases sl
    all_goals
      simp_all [step, closeLightbox, stopSlideshow, toggleSlideshow, startSlideshow,
        advanceNext_flags, advancePrev_flags, advanceNext, advancePrev]
    all_goals split_ifs at hafter ⊢ <;> simp_all
  · intro h
    simp only at h
    subst h
    simp [step]

/-- Witness for C7 with the slideshow running over the full catalog,
then with it stopped. -/
theorem C7_close_always_stops_slideshow_witness :
    ((step ⟨true, true, IMAGES, 0⟩ .keyEscape).slideshowOn = false ∧
      (step ⟨true, true, IMAGES, 0⟩ .keyEscape).lightboxActive = false) ∧
    ((step ⟨true, true, IMAGES, 0⟩ .slideshowTick).lightboxActive = false →
      (step ⟨true, true, IMAGES, 0⟩ .slideshowTick).slideshowOn = false) ∧
    step ⟨false, false, IMAGES, 0⟩ .slideshowTick = ⟨false, false, IMAGES, 0⟩ :=
  ⟨(C7_close_always_stops_slideshow ⟨true, true, IMAGES, 0⟩).2.2.1 rfl,
   (C7_close_always_stops_slideshow ⟨true, true, IMAGES, 0⟩).2.2.2.1 .slideshowTick
      (by intro h; exact absurd h (by decide)),
   (C7_close_always_stops_slideshow ⟨false, false, IMAGES, 0⟩).2.2.2.2 rfl⟩

/-- C8 counterexample: a corrupt (non-JSON) stored favorites value
makes hydration throw — line 48 of script.js has no try/catch around
JSON.parse — instead of yielding the empty set as the claim states. -/
theorem C8_corrupt_value_throws :
    hydrateFavorites (some "oops") = Except.error "SyntaxError in JSON.parse" ∧
    hydrateFavorites (some "oops") ≠ Except.ok [] := by
  refine ⟨rfl, ?_⟩
  intro h
  rw [(rfl : hydrateFavorites (some "oops") = Except.error "SyntaxError in JSON.parse")] at h
  exact Except.noConfusion h

/-- C8 as the code has it: an absent value and the falsy empty string
hydrate to the empty set, a well-formed JSON string array hydrates to
its ids, and any value JSON.parse cannot parse makes hydration throw
an uncaught error rather than defaulting to the empty set. -/
theorem C8_hydration_behavior :
    (hydrateFavorites none = Except.ok []) ∧
    (hydrateFavorites (some "") = Except.ok []) ∧
    (hydrateFavorites (some "[]") = Except.ok []) ∧
    (hydrateFavorites (some "[\"3\",\"7\"]") = Except.ok ["3", "7"]) ∧
    (∀ s, s ≠ "" → jsonParseStringArray s = none →
      hydrateFavorites (some s) = Except.error "SyntaxError in JSON.parse") := by
  refine ⟨rfl, rfl, rfl, rfl, ?_⟩
  intro s hs hp
  unfold hydrateFavorites
  dsimp only
  rw [if_neg (by simp [hs])]
  rw [hp]

/-- Witness for C8's amended statement at a concrete corrupt value. -/
theorem C8_hydration_behavior_witness :
    hydrateFavorites (some "corrupt") = Except.error "SyntaxError in JSON.parse" :=
  C8_hydration_behavior.2.2.2.2 "corrupt" (by decide) (by decide)

/-- Witness for C5's amended statement at a one-item filtered list with
the lightbox on it. -/
theorem C5_shared_toggle_fanout_witness :
    toggleFavoriteCurrent ⟨"all", "", "newest", IMAGES.take 1, 0, [], "[]", [("1", false)], false, []⟩
      = updateLightboxFavoriteIcon
          (toggleFavorite ⟨"all", "", "newest", IMAGES.take 1, 0, [], "[]", [("1", false)], false, []⟩
            (IMAGES.take 1).headI.id false) ∧
    (toggleFavorite ⟨"all", "", "newest", IMAGES.take 1, 0, [], "[]", [("1", false)], false, []⟩ "1" true).sidebarIds.contains (IMAGES.take 1).headI.id
      = (toggleFavorite ⟨"all", "", "newest", IMAGES.take 1, 0, [], "[]", [("1", false)], false, []⟩ "1" true).favorites.contains (IMAGES.take 1).headI.id :=
  ⟨(C5_shared_toggle_fanout ⟨"all", "", "newest", IMAGES.take 1, 0, [], "[]", [("1", false)], false, []⟩ "1" true).2.1
      (IMAGES.take 1).headI (by decide),
   (C5_shared_toggle_fanout ⟨"all", "", "newest", IMAGES.take 1, 0, [], "[]", [("1", false)], false, []⟩ "1" true).2.2.2.1
      (IMAGES.take 1).headI (by decide)⟩

end Gallery
